import Mathlib

/-!
Verification of the extraction utilities and model service of this
repository (a PDF text extractor, a DOCX-to-Markdown converter, and a
Qwen model HTTP service) against their natural-language specification.

The Python sources are shallowly embedded: every effectful interaction
with the outside world (a third-party library call, an HTTP response, a
file write) is a parameter enumerating its possible outcomes, and each
Python function becomes a total Lean function over those outcomes.
Python string primitives used by the sources (`str.strip`, `len`,
single-character `str.replace`, `os.path` helpers) are embedded as
structurally recursive functions on `List Char` so that every
definition evaluates inside the kernel.
-/

/-! ## Python string primitives -/

/-- Whitespace characters stripped by Python's `str.strip()` (the ASCII
part of the Unicode whitespace class, which is all the sources ever
produce). -/
def pyIsSpace (c : Char) : Bool :=
  c = ' ' || c = '\t' || c = '\n' || c = '\r' || c = '\x0b' || c = '\x0c'

/-- Embedding of Python `str.strip()`: drop leading and trailing
whitespace. -/
def pyStrip (s : String) : String :=
  String.mk (((s.data.dropWhile pyIsSpace).reverse.dropWhile pyIsSpace).reverse)

/-- Embedding of Python `len(text)` (number of code points). -/
def pyLen (s : String) : Nat := s.data.length

/-- Embedding of Python `str.replace(a, b)` for a single-character
pattern and replacement, the only form the sources use. -/
def replaceChar (a b : Char) (s : String) : String :=
  String.mk (s.data.map (fun c => if c = a then b else c))

/-- Index of the last occurrence of `c` in the list, counting from
`i` for the head (auxiliary for `lastIndexOf`). -/
def lastIndexOfAux (c : Char) : List Char → Nat → Option Nat
  | [], _ => Option.none
  | x :: xs, i =>
    match lastIndexOfAux c xs (i + 1) with
    | Option.some j => Option.some j
    | Option.none => if x = c then Option.some i else Option.none

/-- Index of the last occurrence of `c` in the list, or `none`. -/
def lastIndexOf (c : Char) (cs : List Char) : Option Nat :=
  lastIndexOfAux c cs 0

/-- Characters of the basename of a path (everything after the last
`/`), as in `os.path.basename`. -/
def basenameChars (cs : List Char) : List Char :=
  match lastIndexOf '/' cs with
  | Option.none => cs
  | Option.some i => cs.drop (i + 1)

/-- Embedding of `os.path.basename`. -/
def basename (p : String) : String := String.mk (basenameChars p.data)

/-- Directory prefix of a path (everything up to and including the last
`/`, empty when there is none). -/
def dirPrefixChars (cs : List Char) : List Char :=
  match lastIndexOf '/' cs with
  | Option.none => []
  | Option.some i => cs.take (i + 1)

/-- Embedding of `os.path.splitext(p)[0]`: the path with its final
extension removed; the extension is the part of the basename from its
last dot on, provided some non-dot character of the basename precedes
that dot (so leading dots never start an extension). -/
def splitextRoot (p : String) : String :=
  let base := basenameChars p.data
  let leading := (base.takeWhile (fun c => c = '.')).length
  match lastIndexOf '.' base with
  | Option.none => p
  | Option.some i =>
    if leading ≤ i then String.mk (dirPrefixChars p.data ++ base.take i) else p

/-- Embedding of `pathlib.Path(p).stem`: the basename without its
suffix, where the suffix starts at the last dot when that dot is
neither the first nor the last character of the basename. -/
def pathStem (p : String) : String :=
  let name := basenameChars p.data
  match lastIndexOf '.' name with
  | Option.none => String.mk name
  | Option.some i =>
    if 0 < i && i + 1 < name.length then String.mk (name.take i) else String.mk name

/-- Boolean prefix test on character lists. -/
def charsPrefix : List Char → List Char → Bool
  | [], _ => true
  | _ :: _, [] => false
  | a :: as, b :: bs => a = b && charsPrefix as bs

/-- Boolean infix (contiguous substring) test on character lists. -/
def charsInfix (needle : List Char) : List Char → Bool
  | [] => charsPrefix needle []
  | c :: cs => charsPrefix needle (c :: cs) || charsInfix needle cs

/-- Embedding of Python substring containment `needle in hay`. -/
def strContains (needle hay : String) : Bool :=
  charsInfix needle.data hay.data

/-- Embedding of Python `s.startswith(prefix)`. -/
def strStartsWith (pre s : String) : Bool :=
  charsPrefix pre.data s.data

/-! ## PDF extractor (`tools/pdf_chunker_test/extract_pdf.py`) -/

/-- Base Python values returned by the extractors: `None` or a `str`. -/
inductive PyAtom where
  | none
  | str (s : String)
deriving DecidableEq, Repr

/-- A value as seen by the `__main__` loop of `extract_pdf.py`: either a
base value (`None` or a string) or a tuple of base values. The loop
tests `isinstance(result, tuple) and result[0] is None`, so tuples must
be representable even though no extractor produces one. -/
inductive PyVal where
  | atom (a : PyAtom)
  | tup (xs : List PyAtom)
deriving DecidableEq, Repr

/-- Outcome of one library-backed extraction attempt: either some call in
the `try` block raised (import failure, unreadable file, a page raising
mid-loop), or the page loop ran to completion and each page's
`extract_text()` returned `None` or a string. -/
inductive ExtractOutcome where
  | raised
  | pages (ps : List (Option String))
deriving DecidableEq, Repr

/-- Common body of `extract_with_pypdf2`, `extract_with_pdfplumber` and
`extract_with_pypdf` (the three functions are textually identical except
for the imported library, whose behaviour is the `ExtractOutcome`
argument): accumulate `page_text + "\n"` for each truthy page text, then
return the text if its stripped form is non-empty, else `None`; any
exception yields `None`. -/
def pdf_lib_extract (o : ExtractOutcome) : PyVal :=
  match o with
  | ExtractOutcome.raised => PyVal.atom PyAtom.none
  | ExtractOutcome.pages ps =>
    let text := ps.foldl (fun acc p =>
      match p with
      | Option.some s => if s = "" then acc else acc ++ s ++ "\n"
      | Option.none => acc) ""
    if pyStrip text = "" then PyVal.atom PyAtom.none else PyVal.atom (PyAtom.str text)

/-- Embedding of `extract_with_pdfplumber`. -/
def extract_with_pdfplumber (o : ExtractOutcome) : PyVal := pdf_lib_extract o

/-- Embedding of `extract_with_pypdf`. -/
def extract_with_pypdf (o : ExtractOutcome) : PyVal := pdf_lib_extract o

/-- Embedding of `extract_with_pypdf2`. -/
def extract_with_pypdf2 (o : ExtractOutcome) : PyVal := pdf_lib_extract o

/-- The `__main__` fallback loop over the list of extractor results:
`continue` when `isinstance(result, tuple) and result[0] is None` (an
empty tuple also continues, because `result[0]` raises `IndexError`,
caught by the bare `except`); otherwise `text = result; break`. Returns
`none` when the loop finishes without a `break` (so `text` keeps its
initial value `None`). -/
def chainLoop : List PyVal → Option PyVal
  | [] => Option.none
  | r :: rest =>
    match r with
    | PyVal.tup [] => chainLoop rest
    | PyVal.tup (PyAtom.none :: _) => chainLoop rest
    | v => Option.some v

/-- Error message printed to stderr by the PDF tool on total failure. -/
def pdfErrMsg : String := "错误: 无法提取PDF文本，请安装pdfplumber或PyPDF2"

/-- Observable outcome of one run of the PDF tool: the value printed to
stdout via `print(text, end='')` (if any), the stderr message (if any),
and the process exit code (0 when the script falls off the end). -/
structure PdfCli where
  printed : Option PyVal
  stderrMsg : Option String
  exitCode : Nat
deriving DecidableEq, Repr

/-- Embedding of the `__main__` block of `extract_pdf.py` (after the
argv check): run the fallback loop over the results of the three
extractors, applied in source order to the outcomes `o1` (pdfplumber),
`o2` (pypdf), `o3` (PyPDF2); if `text` is `None` print the error to
stderr and exit 1, otherwise print `text` to stdout. -/
def pdf_main (o1 o2 o3 : ExtractOutcome) : PdfCli :=
  match chainLoop [extract_with_pdfplumber o1, extract_with_pypdf o2,
      extract_with_pypdf2 o3] with
  | Option.some (PyVal.atom PyAtom.none) => ⟨Option.none, Option.some pdfErrMsg, 1⟩
  | Option.none => ⟨Option.none, Option.some pdfErrMsg, 1⟩
  | Option.some v => ⟨Option.some v, Option.none, 0⟩

/-! ## DOCX converter (`tools/docx2md/docx2md.py`) -/

/-- A paragraph as seen through python-docx: its `text`, the value of
`para.style.name if para.style else None`, and whether evaluating the
style check raised (in which case the `except` treats the paragraph as
normal text). -/
structure Para where
  text : String
  styleName : Option String
  styleRaises : Bool
deriving DecidableEq, Repr

/-- Heading level computed by the `if`/`elif` chain of
`extract_text_from_docx` for a style name that starts with `Heading`:
substring containment tests in source order, defaulting to 2. -/
def docx_heading_level (styleName : String) : Nat :=
  if strContains "Heading 1" styleName || strContains "Title" styleName then 1
  else if strContains "Heading 2" styleName then 2
  else if strContains "Heading 3" styleName then 3
  else if strContains "Heading 4" styleName then 4
  else 2

/-- Per-paragraph output of the python-docx branch of
`extract_text_from_docx`: skip the paragraph when its stripped text is
blank; on a style-check exception append the text as a normal
paragraph; when the style name is truthy and starts with `Heading`,
prefix `'#' * level + ' '`; otherwise append the text. Every emitted
fragment ends with a blank line. -/
def docx_format_para (p : Para) : Option String :=
  let text := pyStrip p.text
  if text = "" then Option.none
  else if p.styleRaises then Option.some (text ++ "\n\n")
  else
    match p.styleName with
    | Option.some s =>
      if s ≠ "" ∧ strStartsWith "Heading" s = true then
        Option.some (String.mk (List.replicate (docx_heading_level s) '#') ++ " " ++ text ++ "\n\n")
      else Option.some (text ++ "\n\n")
    | Option.none => Option.some (text ++ "\n\n")

/-- Outcome of the python-docx candidate: parsed paragraphs, an
`ImportError` on `import docx` (which falls through to the XML
candidate), or any other exception (which propagates to the outer
handler of `extract_text_from_docx` without trying the XML candidate). -/
inductive DocxAttempt where
  | ok (paras : List Para)
  | importErr
  | raises (msg : String)
deriving DecidableEq, Repr

/-- Outcome of the raw-XML candidate: the `w:t` text nodes of each
`w:p` element (each node's `.text` is `None` or a string), or an
exception (bad zip, missing part, malformed XML) that propagates to the
outer handler. -/
inductive XmlAttempt where
  | ok (paras : List (List (Option String)))
  | raises (msg : String)
deriving DecidableEq, Repr

/-- Text of one XML paragraph: join the truthy `w:t` node texts and
strip the result. -/
def xml_para_text (ts : List (Option String)) : String :=
  pyStrip (String.join (ts.filterMap (fun t =>
    match t with
    | Option.some s => if s = "" then Option.none else Option.some s
    | Option.none => Option.none)))

/-- Embedding of `extract_text_from_docx`: try python-docx, fall back to
the raw XML parse only on `ImportError`, and turn any other exception of
either candidate into the string `"Error extracting text: " + str(e)`. -/
def extract_text_from_docx (d : DocxAttempt) (x : XmlAttempt) : String :=
  match d with
  | DocxAttempt.ok paras => String.join (paras.filterMap docx_format_para)
  | DocxAttempt.raises msg => "Error extracting text: " ++ msg
  | DocxAttempt.importErr =>
    match x with
    | XmlAttempt.ok paras =>
      String.intercalate "\n\n" ((paras.map xml_para_text).filter (fun t => t ≠ ""))
    | XmlAttempt.raises msg => "Error extracting text: " ++ msg

/-- Markdown document assembled by `convert_docx_to_markdown` around the
extracted text: H1 title from the stem of the input path with `_` and
`-` replaced by spaces, a provenance blockquote naming the original
file, a horizontal rule, then the body. -/
def mkMarkdownDoc (input body : String) : String :=
  "# " ++ replaceChar '-' ' ' (replaceChar '_' ' ' (pathStem input)) ++ "\n\n" ++
  "> 从DOCX转换: " ++ basename input ++ "\n\n" ++
  "---\n\n" ++ body

/-- Embedding of `convert_docx_to_markdown`: `inputExists` is the
`os.path.exists` probe and `writeOk` the success of the output-file
write. Returns the written file (path and content, `none` when nothing
was written) and the boolean the function returns to `main`. -/
def convert_docx_to_markdown (inputExists : Bool) (input : String)
    (output : Option String) (d : DocxAttempt) (x : XmlAttempt)
    (writeOk : Bool) : Option (String × String) × Bool :=
  if !inputExists then (Option.none, false)
  else
    let outputPath := output.getD (splitextRoot input ++ ".md")
    let markdown := mkMarkdownDoc input (extract_text_from_docx d x)
    if writeOk then (Option.some (outputPath, markdown), true)
    else (Option.none, false)

/-- Exit code chosen by `main` of `docx2md.py`: `sys.exit(0 if success
else 1)`. -/
def docx_main_exit (success : Bool) : Nat := if success then 0 else 1

/-! ## Qwen model service (`qwen_service/main.py`) -/

/-- A FastAPI `HTTPException` as raised by the service: status code and
detail string. Its `str()` (inherited from starlette) is
`f"{status_code}: {detail}"`. -/
structure HTTPError where
  statusCode : Nat
  detail : String
deriving DecidableEq, Repr

/-- The module-level mutable state of the service: the globals `_model`
and `_tokenizer` (handles are abstracted as natural numbers; only
null-ness and identity matter to the claims). -/
structure ModelState where
  model : Option Nat
  tokenizer : Option Nat
deriving DecidableEq, Repr

/-- Outcome of one attempted local model load (the body of the `try` in
`load_local_model` when it actually runs): full success producing fresh
handles, an `ImportError` on `transformers`/`torch`, the tokenizer
constructor raising (before `_tokenizer` is assigned), or the model
constructor raising (after `_tokenizer` was already assigned `t`). -/
inductive LoadOutcome where
  | success (m t : Nat)
  | importErr
  | tokRaised
  | modelRaised (t : Nat)
deriving DecidableEq, Repr

/-- Embedding of `load_local_model`: if `_model is not None` return the
cached pair at once; otherwise run the load attempt, assigning the
globals as the source does, and return the loaded pair on success or
`(None, None)` on any failure. Result: new state and returned pair. -/
def load_local_model (s : ModelState) (o : LoadOutcome) :
    ModelState × (Option Nat × Option Nat) :=
  if s.model.isSome then (s, (s.model, s.tokenizer))
  else
    match o with
    | LoadOutcome.success m t =>
      (⟨Option.some m, Option.some t⟩, (Option.some m, Option.some t))
    | LoadOutcome.importErr => (s, (Option.none, Option.none))
    | LoadOutcome.tokRaised => (s, (Option.none, Option.none))
    | LoadOutcome.modelRaised t =>
      (⟨s.model, Option.some t⟩, (Option.none, Option.none))

/-- Embedding of `count_tokens_local`: when `_tokenizer is None`, run
`_, _tokenizer = load_local_model()` (the global `_tokenizer` becomes
the returned tokenizer); if it is still `None`, fall back to
`len(text) // 4`; otherwise encode — `enc` is the outcome of
`_tokenizer.encode(text, add_special_tokens=False)`, `some n` for a
token list of length `n` and `none` when it raised, in which case the
fallback estimate is returned. Result: new state and returned count.
The state update of the first step (`_, _tokenizer = load_local_model()`)
is split out as `count_tokens_sync`. -/
def count_tokens_sync (s : ModelState) (o : LoadOutcome) : ModelState :=
  if s.tokenizer.isNone then
    ⟨(load_local_model s o).1.model, (load_local_model s o).2.2⟩
  else s

def count_tokens_local (s : ModelState) (o : LoadOutcome) (enc : Option Nat)
    (text : String) : ModelState × Nat :=
  let s1 := count_tokens_sync s o
  if s1.tokenizer.isNone then (s1, pyLen text / 4)
  else
    match enc with
    | Option.some n => (s1, n)
    | Option.none => (s1, pyLen text / 4)

/-- Outcome of the remote token-count POST in `count_tokens_api`:
either some call raised (network error, timeout, JSON decoding), or a
response arrived with the given status code and, when the JSON body had
a `token_count` field, its value. -/
inductive ApiCountOutcome where
  | raised
  | resp (status : Nat) (tokenCount : Option Nat)
deriving DecidableEq, Repr

/-- Embedding of `count_tokens_api`: on a 200 response return
`result.get("token_count", len(text) // 4)`; on any other status or any
exception return `len(text) // 4`. -/
def count_tokens_api (o : ApiCountOutcome) (text : String) : Nat :=
  match o with
  | ApiCountOutcome.raised => pyLen text / 4
  | ApiCountOutcome.resp status tokenCount =>
    if status = 200 then tokenCount.getD (pyLen text / 4)
    else pyLen text / 4

/-- Embedding of the `POST /api/v1/token_count` handler `token_count`:
route to the local or remote counter by `LOCAL_MODE`. Both counters
return on every path (no `raise` statement reaches them), so the
handler's `except` branch (HTTP 500) is dead and the handler always
answers with a count. Result: new state and HTTP-level response. -/
def token_count (localMode : Bool) (s : ModelState) (o : LoadOutcome)
    (enc : Option Nat) (api : ApiCountOutcome) (text : String) :
    ModelState × Except HTTPError Nat :=
  if localMode then
    let r := count_tokens_local s o enc text
    (r.1, Except.ok r.2)
  else (s, Except.ok (count_tokens_api api text))

/-- Embedding of `generate_local`: when `_model is None or _tokenizer
is None`, run `_model, _tokenizer = load_local_model()` (both globals
become the returned pair); if either is still `None`, raise HTTP 503;
otherwise run generation — `gen` is its outcome, `Except.ok t` for
decoded text `t` and `Except.error msg` when it raised with
`str(e) = msg`, turned into HTTP 500. Result: new state and outcome.
The state update of the first step (`_model, _tokenizer =
load_local_model()`) is split out as `generate_sync`. -/
def generate_sync (s : ModelState) (o : LoadOutcome) : ModelState :=
  if s.model.isNone || s.tokenizer.isNone then
    ⟨(load_local_model s o).2.1, (load_local_model s o).2.2⟩
  else s

def generate_local (s : ModelState) (o : LoadOutcome)
    (gen : Except String String) : ModelState × Except HTTPError String :=
  let s1 := generate_sync s o
  if s1.model.isNone || s1.tokenizer.isNone then
    (s1, Except.error ⟨503, "Local model not available"⟩)
  else
    match gen with
    | Except.ok t => (s1, Except.ok t)
    | Except.error msg => (s1, Except.error ⟨500, "Generation failed: " ++ msg⟩)

/-- Decidable equality for `Except`, needed to evaluate concrete runs
of the service's fallible operations. -/
def Except.decEq {ε α : Type} [DecidableEq ε] [DecidableEq α] :
    (a b : Except ε α) → Decidable (a = b)
  | Except.ok a, Except.ok b =>
    if h : a = b then Decidable.isTrue (by rw [h]) else Decidable.isFalse (by simp [h])
  | Except.ok _, Except.error _ => Decidable.isFalse (by simp)
  | Except.error _, Except.ok _ => Decidable.isFalse (by simp)
  | Except.error e, Except.error f =>
    if h : e = f then Decidable.isTrue (by rw [h]) else Decidable.isFalse (by simp [h])

instance {ε α : Type} [DecidableEq ε] [DecidableEq α] : DecidableEq (Except ε α) :=
  Except.decEq

/-- Outcome of the remote chat-completion POST in `generate_api`:
either some call raised before a response was available (network error,
timeout), with `str(e) = msg`; or a response arrived with the given
status code and body text, and (for the 200 branch) `extract` is the
outcome of `result["choices"][0]["message"]["content"]` — the content
string, or the `str()` of the exception the JSON access raised. -/
inductive RemoteOutcome where
  | raised (msg : String)
  | resp (status : Nat) (body : String) (extract : Except String String)
deriving DecidableEq, Repr

/-- Embedding of `generate_api`. On a 200 response it returns the
extracted content. On a non-200 response the source raises
`HTTPException(status_code=response.status_code, detail=response.text)`
— but that raise sits inside the `try`, and `except Exception` catches
`HTTPException` (a subclass of `Exception`) and re-raises
`HTTPException(500, "API call failed: " + str(e))`, where the
starlette `str()` of the caught exception is `"{status}: {body}"`. Any
other exception is wrapped the same way. -/
def generate_api (o : RemoteOutcome) : Except HTTPError String :=
  match o with
  | RemoteOutcome.raised msg => Except.error ⟨500, "API call failed: " ++ msg⟩
  | RemoteOutcome.resp status body extract =>
    if status = 200 then
      match extract with
      | Except.ok content => Except.ok content
      | Except.error msg => Except.error ⟨500, "API call failed: " ++ msg⟩
    else
      Except.error ⟨500, "API call failed: " ++ toString status ++ ": " ++ body⟩

/-! ## Auxiliary lemmas -/

theorem pdf_lib_extract_none_or_nonblank (o : ExtractOutcome) :
    pdf_lib_extract o = PyVal.atom PyAtom.none ∨
    ∃ s, pdf_lib_extract o = PyVal.atom (PyAtom.str s) ∧ pyStrip s ≠ "" := by
  cases o with
  | raised => exact Or.inl rfl
  | pages ps =>
    unfold pdf_lib_extract
    by_cases h : pyStrip (ps.foldl (fun acc p =>
      match p with
      | Option.some s => if s = "" then acc else acc ++ s ++ "\n"
      | Option.none => acc) "") = ""
    · exact Or.inl (by simp [h])
    · exact Or.inr ⟨_, by simp [h], h⟩

theorem strStartsWith_heading_ne_empty (s : String)
    (h : strStartsWith "Heading" s = true) : s ≠ "" := by
  intro hs
  subst hs
  exact absurd h (by decide)

/-! ## Claim theorems -/

/-- Claim C1 (code bug, failing input): the spec says the PDF tool tries
pdfplumber, then pypdf, then PyPDF2, moving to the next candidate when an
earlier one returns null. In the source, the loop's continue-guard is
`isinstance(result, tuple) and result[0] is None`, which no extractor
return value (always `None` or `str`) can satisfy, so the loop breaks on
the first candidate unconditionally. At the failing input below,
pdfplumber yields `None` while pypdf would yield `"hello\n"`, yet the
tool prints nothing and exits 1 instead of printing pypdf's result. -/
theorem pdf_chain_never_advances_on_null :
    extract_with_pdfplumber ExtractOutcome.raised = PyVal.atom PyAtom.none ∧
    extract_with_pypdf (ExtractOutcome.pages [Option.some "hello"]) =
      PyVal.atom (PyAtom.str "hello\n") ∧
    pdf_main ExtractOutcome.raised (ExtractOutcome.pages [Option.some "hello"])
      ExtractOutcome.raised = ⟨Option.none, Option.some pdfErrMsg, 1⟩ :=
  ⟨rfl, by decide, by decide⟩

/-- Claim C6: whenever all three candidate extractors yield null, the PDF
tool prints nothing to standard output, prints the error message to
standard error, and exits with status 1. -/
theorem pdf_all_null_exits_one (o1 o2 o3 : ExtractOutcome)
    (h1 : extract_with_pdfplumber o1 = PyVal.atom PyAtom.none)
    (h2 : extract_with_pypdf o2 = PyVal.atom PyAtom.none)
    (h3 : extract_with_pypdf2 o3 = PyVal.atom PyAtom.none) :
    pdf_main o1 o2 o3 = ⟨Option.none, Option.some pdfErrMsg, 1⟩ := by
  unfold pdf_main
  rw [h1, h2, h3]
  decide

/-- Witness for C6 at a concrete input: all three libraries raising. -/
theorem pdf_all_null_exits_one_witness :
    pdf_main ExtractOutcome.raised ExtractOutcome.raised ExtractOutcome.raised =
      ⟨Option.none, Option.some pdfErrMsg, 1⟩ :=
  pdf_all_null_exits_one ExtractOutcome.raised ExtractOutcome.raised
    ExtractOutcome.raised rfl rfl rfl

/-- Claim C10: each of the three PDF extractor functions is a total
function of its library outcome (every exception is caught inside, so it
never raises) and returns either null or a string whose stripped form is
non-empty; a blank or whitespace-only extraction is reported as null,
never as an empty string. -/
theorem pdf_extractors_null_or_nonblank (o1 o2 o3 : ExtractOutcome) :
    (extract_with_pdfplumber o1 = PyVal.atom PyAtom.none ∨
      ∃ s, extract_with_pdfplumber o1 = PyVal.atom (PyAtom.str s) ∧ pyStrip s ≠ "") ∧
    (extract_with_pypdf o2 = PyVal.atom PyAtom.none ∨
      ∃ s, extract_with_pypdf o2 = PyVal.atom (PyAtom.str s) ∧ pyStrip s ≠ "") ∧
    (extract_with_pypdf2 o3 = PyVal.atom PyAtom.none ∨
      ∃ s, extract_with_pypdf2 o3 = PyVal.atom (PyAtom.str s) ∧ pyStrip s ≠ "") :=
  ⟨pdf_lib_extract_none_or_nonblank o1, pdf_lib_extract_none_or_nonblank o2,
    pdf_lib_extract_none_or_nonblank o3⟩

/-- Claim C2 (code bug, failing input): the spec says a non-200 remote
response makes `generate_api` fail with the remote status code and body
verbatim. The source does raise
`HTTPException(response.status_code, response.text)`, but that raise is
inside the `try`, whose `except Exception` catches it and re-raises
`HTTPException(500, "API call failed: " + str(e))`. At a 404 response
with body `"not found"`, the caller therefore sees status 500, not 404. -/
theorem generate_api_rewraps_non200 :
    generate_api (RemoteOutcome.resp 404 "not found" (Except.error "KeyError")) =
      Except.error ⟨500, "API call failed: 404: not found"⟩ ∧
    generate_api (RemoteOutcome.resp 404 "not found" (Except.error "KeyError")) ≠
      Except.error ⟨404, "not found"⟩ :=
  ⟨by decide, by decide⟩

/-- Claim C3 counterexample: the claim as stated says any heading style
that is not one of the four styles `Heading 1` … `Heading 4` is emitted
at level 2; but recognition in the source is by substring containment,
so the style `Heading 10` (which is none of the four) contains
`Heading 1` and is emitted at level 1, not level 2. -/
theorem docx_heading_unrecognized_counterexample :
    ("Heading 10" ≠ "Heading 1" ∧ "Heading 10" ≠ "Heading 2" ∧
      "Heading 10" ≠ "Heading 3" ∧ "Heading 10" ≠ "Heading 4") ∧
    strStartsWith "Heading" "Heading 10" = true ∧
    docx_format_para ⟨"x", Option.some "Heading 10", false⟩ =
      Option.some "# x\n\n" ∧
    docx_format_para ⟨"x", Option.some "Heading 10", false⟩ ≠
      Option.some "## x\n\n" := by
  refine ⟨⟨by decide, by decide, by decide, by decide⟩, by decide, by decide, by decide⟩

/-- Claim C3 (amended): for a paragraph with non-blank stripped text, a
`Heading 3` style is emitted as `### ` followed by the text; a heading
style containing none of the substrings `Heading 1`, `Title`,
`Heading 2`, `Heading 3`, `Heading 4` (the recognition is by substring
containment, not by exact style name) is emitted at the default level 2;
and every heading style maps to a level in 1–4. -/
theorem docx_heading_level_map :
    (∀ t : String, pyStrip t ≠ "" →
      docx_format_para ⟨t, Option.some "Heading 3", false⟩ =
        Option.some ("### " ++ pyStrip t ++ "\n\n")) ∧
    (∀ s t : String, pyStrip t ≠ "" → strStartsWith "Heading" s = true →
      strContains "Heading 1" s = false → strContains "Title" s = false →
      strContains "Heading 2" s = false → strContains "Heading 3" s = false →
      strContains "Heading 4" s = false →
      docx_format_para ⟨t, Option.some s, false⟩ =
        Option.some ("## " ++ pyStrip t ++ "\n\n")) ∧
    (∀ s : String, 1 ≤ docx_heading_level s ∧ docx_heading_level s ≤ 4) := by
  refine ⟨?_, ?_, ?_⟩
  · intro t ht
    unfold docx_format_para
    rw [if_neg ht]
    simp only [Bool.false_eq_true, if_false]
    rw [if_pos ⟨by decide, by decide⟩]
    have e1 : String.mk (List.replicate (docx_heading_level "Heading 3") '#') ++ " " =
        "### " := by decide
    rw [e1]
  · intro s t ht hstart h1 hT h2 h3 h4
    have hs : s ≠ "" := strStartsWith_heading_ne_empty s hstart
    have lv : docx_heading_level s = 2 := by
      simp [docx_heading_level, h1, hT, h2, h3, h4]
    unfold docx_format_para
    rw [if_neg ht]
    simp only [Bool.false_eq_true, if_false]
    rw [if_pos ⟨hs, hstart⟩, lv]
    have e1 : String.mk (List.replicate 2 '#') ++ " " = "## " := by decide
    rw [e1]
  · intro s
    unfold docx_heading_level
    repeat' split
    all_goals decide

/-- Witness for the amended C3 at concrete inputs: a `Heading 3`
paragraph and a `Heading X` paragraph (a heading style containing none
of the recognized substrings). -/
theorem docx_heading_level_map_witness :
    docx_format_para ⟨" hi ", Option.some "Heading 3", false⟩ =
      Option.some ("### " ++ pyStrip " hi " ++ "\n\n") ∧
    docx_format_para ⟨"hi", Option.some "Heading X", false⟩ =
      Option.some ("## " ++ pyStrip "hi" ++ "\n\n") :=
  ⟨docx_heading_level_map.1 " hi " (by decide),
    docx_heading_level_map.2.1 "Heading X" "hi" (by decide) (by decide)
      (by decide) (by decide) (by decide) (by decide) (by decide)⟩

/-- Claim C4: when DOCX extraction fails entirely (the python-docx
candidate raises a non-ImportError, or it is absent and the XML
candidate raises), `convert_docx_to_markdown` substitutes the error
message string as the extracted text, writes it into the output Markdown
file, and returns `True`, so `main` exits with code 0: total extraction
failure is never signaled through the exit code. -/
theorem docx_total_failure_reports_success (input : String) (out : Option String)
    (d : DocxAttempt) (x : XmlAttempt)
    (h : (∃ m, d = DocxAttempt.raises m) ∨
      (d = DocxAttempt.importErr ∧ ∃ m, x = XmlAttempt.raises m)) :
    ∃ m, extract_text_from_docx d x = "Error extracting text: " ++ m ∧
      convert_docx_to_markdown true input out d x true =
        (Option.some (out.getD (splitextRoot input ++ ".md"),
          mkMarkdownDoc input ("Error extracting text: " ++ m)), true) ∧
      docx_main_exit (convert_docx_to_markdown true input out d x true).2 = 0 := by
  rcases h with ⟨m, rfl⟩ | ⟨rfl, m, rfl⟩
  · exact ⟨m, rfl, rfl, rfl⟩
  · exact ⟨m, rfl, rfl, rfl⟩

/-- Witness for C4 at a concrete input: python-docx raising on a
corrupt document. -/
theorem docx_total_failure_reports_success_witness :
    ∃ m, extract_text_from_docx (DocxAttempt.raises "boom") (XmlAttempt.ok []) =
        "Error extracting text: " ++ m ∧
      convert_docx_to_markdown true "doc.docx" Option.none
          (DocxAttempt.raises "boom") (XmlAttempt.ok []) true =
        (Option.some ((Option.none).getD (splitextRoot "doc.docx" ++ ".md"),
          mkMarkdownDoc "doc.docx" ("Error extracting text: " ++ m)), true) ∧
      docx_main_exit (convert_docx_to_markdown true "doc.docx" Option.none
          (DocxAttempt.raises "boom") (XmlAttempt.ok []) true).2 = 0 :=
  docx_total_failure_reports_success "doc.docx" Option.none
    (DocxAttempt.raises "boom") (XmlAttempt.ok []) (Or.inl ⟨"boom", rfl⟩)

/-- Claim C7: for an existing input path, the written Markdown file is,
in order, an H1 title equal to the input stem with `_` and `-` replaced
by spaces, a blockquote naming the original file, a horizontal rule,
then the extracted body; the output path is the input path with its
extension replaced by `.md` when none is supplied, and exactly the
supplied path otherwise. -/
theorem docx_markdown_layout (input : String) (o : String)
    (d : DocxAttempt) (x : XmlAttempt) :
    convert_docx_to_markdown true input Option.none d x true =
      (Option.some (splitextRoot input ++ ".md",
        "# " ++ replaceChar '-' ' ' (replaceChar '_' ' ' (pathStem input)) ++ "\n\n" ++
        "> 从DOCX转换: " ++ basename input ++ "\n\n" ++
        "---\n\n" ++ extract_text_from_docx d x), true) ∧
    convert_docx_to_markdown true input (Option.some o) d x true =
      (Option.some (o,
        "# " ++ replaceChar '-' ' ' (replaceChar '_' ' ' (pathStem input)) ++ "\n\n" ++
        "> 从DOCX转换: " ++ basename input ++ "\n\n" ++
        "---\n\n" ++ extract_text_from_docx d x), true) :=
  ⟨rfl, rfl⟩

/-- Claim C5: whenever token counting is in fallback mode — locally, the
tokenizer is unavailable after the load attempt or `encode` raises;
remotely, the call raises, the status is not 200, or the 200 body lacks
`token_count` — the returned count is `len(text) // 4`. -/
theorem token_count_fallback_floor (text : String) :
    (∀ s o enc, (count_tokens_local s o enc text).1.tokenizer = Option.none →
      (count_tokens_local s o enc text).2 = pyLen text / 4) ∧
    (∀ s o, (count_tokens_local s o Option.none text).2 = pyLen text / 4) ∧
    count_tokens_api ApiCountOutcome.raised text = pyLen text / 4 ∧
    (∀ st tc, st ≠ 200 →
      count_tokens_api (ApiCountOutcome.resp st tc) text = pyLen text / 4) ∧
    count_tokens_api (ApiCountOutcome.resp 200 Option.none) text = pyLen text / 4 := by
  refine ⟨?_, ?_, rfl, ?_, rfl⟩
  · intro s o enc h
    by_cases hg : (count_tokens_sync s o).tokenizer = Option.none
    · simp [count_tokens_local, hg]
    · exfalso
      apply hg
      revert h
      simp only [count_tokens_local, Option.isNone_iff_eq_none, if_neg hg]
      cases enc <;> simp [hg]
  · intro s o
    by_cases hg : (count_tokens_sync s o).tokenizer = Option.none
    · simp [count_tokens_local, hg]
    · simp [count_tokens_local, Option.isNone_iff_eq_none, hg]
  · intro st tc h
    simp [count_tokens_api, h]

/-- Witness for C5 at concrete inputs: an 8-character text (so the
estimate is 2) counted with no tokenizer available, and against a
remote 500 response. -/
theorem token_count_fallback_floor_witness :
    (count_tokens_local ⟨Option.none, Option.none⟩ LoadOutcome.importErr
      (Option.some 5) "abcdefgh").2 = pyLen "abcdefgh" / 4 ∧
    count_tokens_api (ApiCountOutcome.resp 500 (Option.some 7)) "abcdefgh" =
      pyLen "abcdefgh" / 4 :=
  ⟨(token_count_fallback_floor "abcdefgh").1 ⟨Option.none, Option.none⟩
      LoadOutcome.importErr (Option.some 5) (by decide),
    (token_count_fallback_floor "abcdefgh").2.2.2.1 500 (Option.some 7) (by decide)⟩

/-- Claim C8: the counting helpers return on every path — every
tokenizer-load, encoding or API failure is absorbed into the fallback
estimate — so the `token_count` endpoint always answers `200` with a
count, in both modes, for every outcome of the effectful steps. -/
theorem token_count_never_errors (localMode : Bool) (s : ModelState)
    (o : LoadOutcome) (enc : Option Nat) (api : ApiCountOutcome) (text : String) :
    (token_count true s o enc api text).2 =
      Except.ok (count_tokens_local s o enc text).2 ∧
    (token_count false s o enc api text).2 = Except.ok (count_tokens_api api text) ∧
    ∃ n, (token_count localMode s o enc api text).2 = Except.ok n := by
  refine ⟨rfl, rfl, ?_⟩
  cases localMode
  · exact ⟨_, rfl⟩
  · exact ⟨_, rfl⟩

/-- Claim C9: once the global model handle is non-null, it is never
reassigned — `load_local_model` returns the cached pair and leaves the
state untouched, and `count_tokens_local` and `generate_local` leave
the whole state (in particular the model handle) unchanged, for every
load outcome, encode outcome and generation outcome. -/
theorem model_handle_immutable (s : ModelState) (m : Nat)
    (h : s.model = Option.some m) :
    (∀ o, load_local_model s o = (s, (s.model, s.tokenizer))) ∧
    (∀ o enc text, (count_tokens_local s o enc text).1 = s) ∧
    (∀ o gen, (generate_local s o gen).1 = s) := by
  obtain ⟨sm, st⟩ := s
  simp only [] at h
  subst h
  have hload : ∀ o, load_local_model ⟨Option.some m, st⟩ o =
      (⟨Option.some m, st⟩, (Option.some m, st)) := by
    intro o
    simp [load_local_model]
  refine ⟨fun o => hload o, ?_, ?_⟩
  · intro o enc text
    have hsync : count_tokens_sync ⟨Option.some m, st⟩ o = ⟨Option.some m, st⟩ := by
      unfold count_tokens_sync
      by_cases ht : (ModelState.mk (Option.some m) st).tokenizer.isNone
      · rw [if_pos ht, hload o]
      · rw [if_neg ht]
    simp only [count_tokens_local, hsync]
    by_cases ht : (ModelState.mk (Option.some m) st).tokenizer.isNone
    · rw [if_pos ht]
    · rw [if_neg ht]
      cases enc <;> rfl
  · intro o gen
    have hsync : generate_sync ⟨Option.some m, st⟩ o = ⟨Option.some m, st⟩ := by
      unfold generate_sync
      by_cases ht : ((ModelState.mk (Option.some m) st).model.isNone ||
          (ModelState.mk (Option.some m) st).tokenizer.isNone) = true
      · rw [if_pos ht, hload o]
      · rw [if_neg ht]
    simp only [generate_local, hsync]
    by_cases ht : ((ModelState.mk (Option.some m) st).model.isNone ||
        (ModelState.mk (Option.some m) st).tokenizer.isNone) = true
    · rw [if_pos ht]
    · rw [if_neg ht]
      cases gen <;> rfl

/-- Witness for C9 at a concrete loaded state. -/
theorem model_handle_immutable_witness :
    load_local_model ⟨Option.some 1, Option.some 2⟩ LoadOutcome.tokRaised =
      (⟨Option.some 1, Option.some 2⟩, (Option.some 1, Option.some 2)) ∧
    (count_tokens_local ⟨Option.some 1, Option.none⟩ (LoadOutcome.success 7 8)
      (Option.some 5) "abc").1 = ⟨Option.some 1, Option.none⟩ ∧
    (generate_local ⟨Option.some 1, Option.none⟩ (LoadOutcome.success 7 8)
      (Except.ok "out")).1 = ⟨Option.some 1, Option.none⟩ :=
  ⟨(model_handle_immutable ⟨Option.some 1, Option.some 2⟩ 1 rfl).1 LoadOutcome.tokRaised,
    (model_handle_immutable ⟨Option.some 1, Option.none⟩ 1 rfl).2.1
      (LoadOutcome.success 7 8) (Option.some 5) "abc",
    (model_handle_immutable ⟨Option.some 1, Option.none⟩ 1 rfl).2.2
      (LoadOutcome.success 7 8) (Except.ok "out")⟩
